import Mathlib

/-!
Verification of the GogoProxy-Mini proxy server.

The repository has two JavaScript entry points:
* src/server.js — ESM variant: optional gogoanime library loaded lazily by
  tryLoadLibs, remote fallback fb over FALLBACK_BASES, mapItem normalizer,
  Express routes /ping /trending /recent /genres /search /anime/:id
  /anime/:id/episodes /watch/:episode_id.
* src/unnamed/part_000 — CJS variant: gogo library required once at startup,
  Jikan fallback with an lru-cache, mapGogo and mapJikan normalizers, routes
  /ping /recent /top-airing /trending /search /anime/:id /stream.

The embedding below models JavaScript values with the JVal inductive and each
handler as a pure function from its collaborators (the optional native
library, a fetch oracle for remote calls, the cache state and a clock) to a
response record.  Asynchronous calls are modelled by their settled outcome:
a method either resolves to a JVal or rejects with an error string (Except).
-/

set_option autoImplicit false

/-- A JavaScript value.  Numbers are modelled as integers (the sources only
manipulate integer counts and page numbers).  undefined and null are kept
distinct because the sources distinguish them (default parameters, the
nullish coalescing operator, template-literal stringification). -/
inductive JVal where
  | undefined
  | null
  | bool (b : Bool)
  | num (n : Int)
  | str (s : String)
  | arr (elems : List JVal)
  | obj (fields : List (String × JVal))

namespace JVal

/-- Property access, as used in the sources.  JavaScript returns undefined
for a missing property and for property access on non-objects via the
optional-chaining operator; the sources only apply bare access to values
obtained from providers, so total access returning undef models both the
guarded and the plain access sites that are actually reachable. -/
def get : JVal → String → JVal
  | .obj fields, k =>
    match fields.find? (fun p => p.1 = k) with
    | some p => p.2
    | none => .undefined
  | _, _ => .undefined

/-- JavaScript truthiness: undefined, null, false, 0 and the empty string
are falsy; every other value (including empty arrays and objects) is truthy. -/
def truthy : JVal → Bool
  | .undefined => false
  | .null => false
  | .bool b => b
  | .num n => n != 0
  | .str s => s != ""
  | .arr _ => true
  | .obj _ => true

/-- The logical-or operator `a || b`: a when a is truthy, else b. -/
def jsOr (a b : JVal) : JVal := if a.truthy then a else b

/-- The nullish-coalescing operator `a ?? b`: b only when a is nullish. -/
def coalesce (a b : JVal) : JVal :=
  match a with
  | .undefined => b
  | .null => b
  | v => v

/-- String conversion as performed by template literals:
String(undefined) = "undefined", String(null) = "null", arrays join their
elements with commas, plain objects print as their object tag. -/
def display : JVal → String
  | .undefined => "undefined"
  | .null => "null"
  | .bool b => if b then "true" else "false"
  | .num n => toString n
  | .str s => s
  | .arr xs => displayList xs
  | .obj _ => "[object Object]"
where
  displayList : List JVal → String
  | [] => ""
  | [x] => display x
  | x :: y :: xs => display x ++ "," ++ displayList (y :: xs)

/-- The value of `v.length` as tested by the routes: the element count for
an array, the character count for a string, the length property otherwise. -/
def lengthProp : JVal → JVal
  | .arr xs => .num xs.length
  | .str s => .num s.length
  | v => v.get "length"

/-- Array.isArray. -/
def isArr : JVal → Bool
  | .arr _ => true
  | _ => false

end JVal

/-- One log record emitted through the pino logger. -/
structure LogEntry where
  level : String
  msg : String
  err : String
deriving Repr, DecidableEq

/-- Hexadecimal digit (upper case), used by percent-encoding. -/
def hexDigit (n : Nat) : Char :=
  if n < 10 then Char.ofNat (48 + n) else Char.ofNat (55 + n)

/-- Characters left unescaped by encodeURIComponent. -/
def isUriUnreserved (c : Char) : Bool :=
  c.isAlphanum || c = Char.ofNat 45 || c = Char.ofNat 95 || c = Char.ofNat 46 ||
  c = Char.ofNat 33 || c = Char.ofNat 126 || c = Char.ofNat 42 ||
  c = Char.ofNat 39 || c = Char.ofNat 40 || c = Char.ofNat 41

/-- The UTF-8 encoding of a single character. -/
def utf8Bytes (c : Char) : List Nat :=
  let n := c.toNat
  if n < 128 then [n]
  else if n < 2048 then [192 + n / 64, 128 + n % 64]
  else if n < 65536 then [224 + n / 4096, 128 + (n / 64) % 64, 128 + n % 64]
  else [240 + n / 262144, 128 + (n / 4096) % 64, 128 + (n / 64) % 64, 128 + n % 64]

/-- Percent-encode a single character as its UTF-8 bytes. -/
def encodeUriChar (c : Char) : List Char :=
  if isUriUnreserved c then [c]
  else
    (utf8Bytes c).foldr
      (fun b acc => Char.ofNat 37 :: hexDigit (b / 16) :: hexDigit (b % 16) :: acc)
      []

/-- The JavaScript builtin encodeURIComponent. -/
def encodeURIComponent (s : String) : String :=
  String.mk (s.data.foldr (fun c acc => encodeUriChar c ++ acc) [])

/-- String.prototype.trim: strip leading and trailing whitespace. -/
def jsTrim (s : String) : String :=
  String.mk
    (((s.data.dropWhile Char.isWhitespace).reverse.dropWhile
        Char.isWhitespace).reverse)

/-- String.prototype.startsWith, over the character list. -/
def jsStartsWith (s p : String) : Bool :=
  s.data.take p.data.length = p.data

/-- String.prototype.slice with a character start index (the ids handled by
the routes are plain ASCII, where this coincides with the UTF-16 slice). -/
def jsDropChars (s : String) (n : Nat) : String :=
  String.mk (s.data.drop n)

/-! ## The lru-cache dependency

part_000 builds `new LRU(\x7b max: 300, ttl: 1000 * 60 * 5 \x7d)` from the
external lru-cache package.  Modelled from the spec: a bounded-capacity map
whose entries carry an expiry instant; `set` inserts at the most-recent end,
evicting the least-recently-used entry when the capacity is exceeded; `get`
treats an entry past its time-to-live as absent (removing it) regardless of
recency, and otherwise promotes the entry to most-recent.  Keys are generic
(part_000 instantiates them with strings). -/

/-- One cache entry: key, stored value and absolute expiry instant. -/
structure CacheEntry (κ : Type) (α : Type) where
  key : κ
  val : α
  expireAt : Nat
deriving Repr, DecidableEq

/-- A bounded least-recently-used map with per-entry time-to-live.
`entries` is ordered from most recently used to least recently used. -/
structure LRUCache (κ : Type) (α : Type) where
  max : Nat
  ttl : Nat
  entries : List (CacheEntry κ α)
deriving Repr, DecidableEq

namespace LRUCache

variable {κ α : Type} [DecidableEq κ]

/-- The keys currently present, most recent first. -/
def keys (c : LRUCache κ α) : List κ := c.entries.map (·.key)

/-- Remove every entry with the given key. -/
def eraseKey (c : LRUCache κ α) (k : κ) : List (CacheEntry κ α) :=
  c.entries.filter (fun e => !(e.key = k : Bool))

/-- Insert a value: any previous entry for the key is replaced, the new entry
becomes most recent, and the least-recently-used entry is evicted when the
capacity would be exceeded. -/
def set (c : LRUCache κ α) (now : Nat) (k : κ) (v : α) (ttl : Nat) :
    LRUCache κ α :=
  { c with entries := (⟨k, v, now + ttl⟩ :: c.eraseKey k).take c.max }

/-- Read a value: a present entry past its time-to-live is removed and
reported absent; a live entry is promoted to most recent. -/
def get (c : LRUCache κ α) (now : Nat) (k : κ) :
    Option α × LRUCache κ α :=
  match c.entries.find? (fun e => (e.key = k : Bool)) with
  | none => (none, c)
  | some e =>
    if now ≤ e.expireAt then
      (some e.val, { c with entries := e :: c.eraseKey k })
    else
      (none, { c with entries := c.eraseKey k })

/-- A fresh cache with the given capacity and default time-to-live. -/
def empty (max ttl : Nat) : LRUCache κ α := ⟨max, ttl, []⟩

/-- Insert a list of bindings in order, with a fixed clock and ttl. -/
def insertAll (c : LRUCache κ α) (now ttl : Nat) (ks : List (κ × α)) :
    LRUCache κ α :=
  ks.foldl (fun c kv => c.set now kv.1 kv.2 ttl) c

end LRUCache

example : JVal.jsOr (.str "") (.str "Unknown") = .str "Unknown" := rfl
example : JVal.coalesce (.num 0) (.num 7) = .num 0 := rfl
example : (JVal.obj [("a", .num 1)]).get "a" = .num 1 := rfl
example : encodeURIComponent "a b" = "a%20b" := by decide

/-! ## part_000: the gogo-first, Jikan-fallback variant -/

/-- part_000 line 22: the response cache,
new LRU with max 300 and ttl 1000 * 60 * 5. -/
def p0CacheInit : LRUCache String JVal := LRUCache.empty 300 (1000 * 60 * 5)

/-- The body produced by the err helper of part_000:
res.status(code).json with an error field. -/
def errBody (msg : String) : JVal := .obj [("error", .str msg)]

/-- Base URL of the Jikan fallback API. -/
def jikanBase : String := "https://api.jikan.moe/v4"

/-- part_000 jikan helper.  The fetch oracle returns the parsed JSON body
for a URL when the request settles with an ok status, and none when the
fetch rejects or the status is not ok (both of which make the helper throw).
The source guards the lookup with cache.has before cache.get; since has
reports exactly the keys for which get succeeds, the pair collapses to a
single get here (with identical resulting cache state).  A miss stores the
raw parsed body with a 3-minute ttl. -/
def jikan (cache : LRUCache String JVal) (now : Nat)
    (oracle : String → Option JVal) (path : String) :
    Except String (JVal × LRUCache String JVal) :=
  let url := jikanBase ++ path
  let key := "jk:" ++ url
  match cache.get now key with
  | (some j, c') => .ok (j, c')
  | (none, _) =>
    match oracle url with
    | none => .error "Jikan fetch or status failure"
    | some j => .ok (j, cache.set now key j (1000 * 60 * 3))

/-- The gogoanime-api-new module as part_000 uses it: a record of optional
capability methods.  A method call either resolves to a value or rejects
with an error message. -/
structure GogoLib where
  recent : Option (Int → Except String JVal)
  fetchRecentReleases : Option (Int → Except String JVal)
  topAiring : Option (Int → Except String JVal)
  trending : Option (Int → Except String JVal)
  search : Option (String → Except String JVal)
  animeDetails : Option (String → Except String JVal)

/-- Outcome of a tryGogo helper: the value it returns, the log records it
emitted, and how many native method invocations it performed. -/
structure GogoTryOut where
  val : JVal
  logs : List LogEntry
  calls : Nat

/-- The result coercion both tryGogo helpers perform on a resolved call:
or-else empty array, then Array.isArray list, then list.results or-else
empty array. -/
def gogoListCoerce (v : JVal) : JVal :=
  let list := v.jsOr (.arr [])
  if list.isArr then list else (list.get "results").jsOr (.arr [])

/-- part_000 tryGogoRecent: with no library return []; otherwise invoke
gogo.recent if it exists, else gogo.fetchRecentReleases if it exists
(the two optional calls joined by the nullish-coalescing operator resolve
to the first method that exists, since an existing async method yields a
non-nullish promise); a rejection is caught, logged as a warning and turned
into []. -/
def tryGogoRecent (gogo : Option GogoLib) (page : Int) : GogoTryOut :=
  match gogo with
  | none => ⟨.arr [], [], 0⟩
  | some g =>
    match g.recent.orElse (fun _ => g.fetchRecentReleases) with
    | none => ⟨.arr [], [], 0⟩
    | some f =>
      match f page with
      | .ok r => ⟨gogoListCoerce r, [], 1⟩
      | .error e => ⟨.arr [], [⟨"warn", "gogo recent failed", e⟩], 1⟩

/-- part_000 tryGogoTop: identical shape, probing gogo.topAiring before
gogo.trending. -/
def tryGogoTop (gogo : Option GogoLib) (page : Int) : GogoTryOut :=
  match gogo with
  | none => ⟨.arr [], [], 0⟩
  | some g =>
    match g.topAiring.orElse (fun _ => g.trending) with
    | none => ⟨.arr [], [], 0⟩
    | some f =>
      match f page with
      | .ok r => ⟨gogoListCoerce r, [], 1⟩
      | .error e => ⟨.arr [], [⟨"warn", "gogo top failed", e⟩], 1⟩

/-- part_000 mapGogo, applied to one item. -/
def mapGogoItem (x : JVal) : JVal :=
  .obj [("title", (x.get "title").jsOr ((x.get "name").jsOr (.str "Unknown"))),
        ("image_url", (x.get "image").jsOr ((x.get "poster").jsOr
          ((x.get "image_url").jsOr (.str "")))),
        ("anime_id", (x.get "id").jsOr ((x.get "slug").jsOr
          ((x.get "animeId").jsOr ((x.get "anime_id").jsOr (.str ""))))),
        ("synopsis", (x.get "description").jsOr ((x.get "synopsis").jsOr (.str "")))]

/-- part_000 mapGogo on a list of items. -/
def mapGogo (items : List JVal) : List JVal := items.map mapGogoItem

/-- part_000 mapJikan, applied to one item.  The anime_id field is the
template literal mal- followed by the stringified mal_id. -/
def mapJikanItem (x : JVal) : JVal :=
  .obj [("title", (x.get "title").jsOr (.str "Unknown")),
        ("image_url", (((x.get "images").get "jpg").get "image_url").jsOr
          ((((x.get "images").get "webp").get "image_url").jsOr (.str ""))),
        ("anime_id", .str ("mal-" ++ (x.get "mal_id").display)),
        ("synopsis", (x.get "synopsis").jsOr (.str ""))]

/-- part_000 mapJikan on a list of items. -/
def mapJikan (items : List JVal) : List JVal := items.map mapJikanItem

/-- Calling mapJikan on a raw field value: the default parameter [] applies
when the argument is undefined; a non-array argument makes items.map throw,
which surfaces in the enclosing route catch. -/
def callMapJikan : JVal → Except String (List JVal)
  | .undefined => .ok []
  | .arr xs => .ok (mapJikan xs)
  | _ => .error "items.map is not a function"

/-- Calling mapGogo on a raw value, with the same default-parameter and
non-array behaviour. -/
def callMapGogo : JVal → Except String (List JVal)
  | .undefined => .ok []
  | .arr xs => .ok (mapGogo xs)
  | _ => .error "items.map is not a function"

/-- A part_000 route response: HTTP status, JSON body, the number of native
gogo method invocations and of jikan helper invocations it performed, and
the cache state afterwards. -/
structure P0Resp where
  status : Nat
  body : JVal
  gogoCalls : Nat
  jikanCalls : Nat
  cache : LRUCache String JVal

/-- part_000 route GET /recent. -/
def p0Recent (gogo : Option GogoLib) (cache : LRUCache String JVal)
    (now : Nat) (oracle : String → Option JVal) (page : Int) : P0Resp :=
  let t := tryGogoRecent gogo page
  if !(t.val.lengthProp.truthy) then
    match jikan cache now oracle ("/seasons/now?limit=24&page=" ++ toString page) with
    | .ok (jk, c') =>
      match callMapJikan (jk.get "data") with
      | .ok items => ⟨200, .arr items, t.calls, 1, c'⟩
      | .error _ => ⟨500, errBody "recent_failed", t.calls, 1, c'⟩
    | .error _ => ⟨500, errBody "recent_failed", t.calls, 1, cache⟩
  else
    match callMapGogo t.val with
    | .ok items => ⟨200, .arr items, t.calls, 0, cache⟩
    | .error _ => ⟨500, errBody "recent_failed", t.calls, 0, cache⟩

/-- part_000 route GET /top-airing (aliased from /trending). -/
def p0TopAiring (gogo : Option GogoLib) (cache : LRUCache String JVal)
    (now : Nat) (oracle : String → Option JVal) (page : Int) : P0Resp :=
  let t := tryGogoTop gogo page
  if !(t.val.lengthProp.truthy) then
    match jikan cache now oracle
        ("/top/anime?filter=airing&limit=24&page=" ++ toString page) with
    | .ok (jk, c') =>
      match callMapJikan (jk.get "data") with
      | .ok items => ⟨200, .arr items, t.calls, 1, c'⟩
      | .error _ => ⟨500, errBody "top_failed", t.calls, 1, c'⟩
    | .error _ => ⟨500, errBody "top_failed", t.calls, 1, cache⟩
  else
    match callMapGogo t.val with
    | .ok items => ⟨200, .arr items, t.calls, 0, cache⟩
    | .error _ => ⟨500, errBody "top_failed", t.calls, 0, cache⟩

/-- part_000 route GET /search.  The query parameter is an optional string;
String of req.query.q or-else the empty string, trimmed.  A non-empty query
first tries gogo.search when it exists; a non-empty coerced result list is
mapped through mapGogo and tagged provider gogo, otherwise the jikan
fallback is queried and tagged provider jikan.  Any throw inside the try
block yields a 500 with code search_failed. -/
def p0Search (gogo : Option GogoLib) (cache : LRUCache String JVal)
    (now : Nat) (oracle : String → Option JVal) (q0 : Option String) : P0Resp :=
  let q := jsTrim (q0.getD "")
  if q = "" then
    ⟨200, .obj [("results", .arr [])], 0, 0, cache⟩
  else
    let viaJikan : Nat → P0Resp := fun gogoCalls =>
      match jikan cache now oracle
          ("/anime?q=" ++ encodeURIComponent q ++ "&limit=24") with
      | .ok (jk, c') =>
        match callMapJikan (jk.get "data") with
        | .ok items =>
          ⟨200, .obj [("results", .arr items), ("provider", .str "jikan")],
            gogoCalls, 1, c'⟩
        | .error _ => ⟨500, errBody "search_failed", gogoCalls, 1, c'⟩
      | .error _ => ⟨500, errBody "search_failed", gogoCalls, 1, cache⟩
    match gogo.bind (·.search) with
    | none => viaJikan 0
    | some f =>
      match f q with
      | .error _ => ⟨500, errBody "search_failed", 1, 0, cache⟩
      | .ok g =>
        let results := if g.isArr then g else (g.get "results").jsOr (.arr [])
        if results.lengthProp.truthy then
          match callMapGogo results with
          | .ok items =>
            ⟨200, .obj [("results", .arr items), ("provider", .str "gogo")],
              1, 0, cache⟩
          | .error _ => ⟨500, errBody "search_failed", 1, 0, cache⟩
        else viaJikan 1

/-- part_000 route GET /anime/:id.  An id with the mal- marker is routed to
the jikan fallback (the gogo library is never consulted); otherwise
gogo.animeDetails is used when present, and a fixed placeholder record is
returned when it is not. -/
def p0Anime (gogo : Option GogoLib) (cache : LRUCache String JVal)
    (now : Nat) (oracle : String → Option JVal) (id : String) : P0Resp :=
  if jsStartsWith id "mal-" then
    let malId := jsDropChars id 4
    match jikan cache now oracle ("/anime/" ++ malId) with
    | .ok (jk, c') =>
      let d := (jk.get "data").jsOr (.obj [])
      ⟨200, .obj [("title", d.get "title"),
                  ("image_url", (((d.get "images").get "jpg").get "image_url").jsOr (.str "")),
                  ("description", (d.get "synopsis").jsOr (.str "")),
                  ("episodes", (d.get "episodes").coalesce (.num 0))],
        0, 1, c'⟩
    | .error _ => ⟨500, errBody "anime_failed", 0, 1, cache⟩
  else
    match gogo.bind (·.animeDetails) with
    | some f =>
      match f id with
      | .ok d => ⟨200, d, 1, 0, cache⟩
      | .error _ => ⟨500, errBody "anime_failed", 1, 0, cache⟩
    | none =>
      ⟨200, .obj [("title", .str "Unknown"), ("image_url", .str ""),
                  ("description", .str ""), ("episodes", .num 0)],
        0, 0, cache⟩

/-! ## server.js: the ESM variant with the public HTTP fallback -/

/-- The optional library object a successful dynamic import yields in
server.js: a record of optional capability methods (the constructed GoGo
instance). -/
structure SLib where
  trending : Option (Unit → Except String JVal)
  recentEpisodes : Option (Unit → Except String JVal)
  genres : Option (Unit → Except String JVal)
  search : Option (String → Except String JVal)
  animeDetails : Option (String → Except String JVal)
  episodes : Option (String → Except String JVal)
  sources : Option (String → Except String JVal)

/-- The dynamic-import environment of server.js: resolving a module name
yields the constructed library when the import succeeds and exposes a GoGo
constructor, and nothing when the import throws or no constructor is found. -/
structure ImportEnv where
  resolve : String → Option SLib

/-- server.js: the candidate module names tried in order by tryLoadLibs. -/
def candidates : List String := ["gogoanime-api", "gogoanime-api-new"]

/-- Outcome of one tryLoadLibs call: the value returned to the route, the
goLib module state afterwards, and how many dynamic imports were attempted. -/
structure LoadOut where
  lib : Option SLib
  state : Option SLib
  probes : Nat

/-- Probe the candidate names in order; count every import attempted. -/
def probeCandidates (env : ImportEnv) : List String → Option SLib × Nat
  | [] => (none, 0)
  | n :: rest =>
    match env.resolve n with
    | some lib => (some lib, 1)
    | none =>
      let (r, c) := probeCandidates env rest
      (r, c + 1)

/-- server.js tryLoadLibs.  A previously stored library is returned without
probing; otherwise the candidates are probed in order and the first success
is stored.  When every candidate fails, goLib is assigned null, so the next
call probes again: only success is memoized. -/
def tryLoadLibs (env : ImportEnv) (goLib : Option SLib) : LoadOut :=
  match goLib with
  | some lib => ⟨some lib, some lib, 0⟩
  | none =>
    let (r, c) := probeCandidates env candidates
    ⟨r, r, c⟩

/-- server.js: the configured fallback base URLs. -/
def FALLBACK_BASES : List String := ["https://jaybeeanime.vercel.app"]

/-- server.js fb helper: try each base in order, returning the parsed body
of the first fetch that settles with an ok status; null (here none) when
every base fails.  The oracle returns the parsed JSON body for a URL with
an ok status and none when the fetch rejects or the status is not ok. -/
def fb (bases : List String) (oracle : String → Option JVal)
    (path : String) : Option JVal :=
  match bases with
  | [] => none
  | base :: rest =>
    match oracle (base ++ path) with
    | some j => some j
    | none => fb rest oracle path

/-- The tolerant reading the server.js list routes apply to a fallback
body: data field, or-else results field, or-else the body itself, or-else
the empty array. -/
def tolerantParse (data : Option JVal) : JVal :=
  let d := data.getD .null
  (((d.get "data").jsOr (d.get "results")).jsOr d).jsOr (.arr [])

/-- server.js mapItem normalizer. -/
def mapItem (a : JVal) : JVal :=
  .obj [("id", (a.get "id").jsOr ((a.get "animeId").jsOr ((a.get "slug").jsOr
          ((a.get "url").jsOr ((a.get "alias").jsOr (.str "")))))),
        ("title", (a.get "title").jsOr ((a.get "name").jsOr
          ((a.get "animeTitle").jsOr (.str "")))),
        ("cover", (a.get "cover").jsOr ((a.get "image_url").jsOr
          ((a.get "image").jsOr ((a.get "img").jsOr
            ((a.get "poster").jsOr ((a.get "pic").jsOr (.str ""))))))),
        ("tags", (a.get "genres").jsOr ((a.get "genre").jsOr (.arr [])))]

/-- A server.js route response: status, JSON body, and how many native
method invocations and fb fallback calls were performed.  Every handler
receives the library value produced by awaiting tryLoadLibs. -/
structure SJResp where
  status : Nat
  body : JVal
  nativeCalls : Nat
  fbCalls : Nat

/-- The shared shape of the server.js list routes (/recent and /trending):
use the given native method when present and successful on an array result
(mapping through mapItem, with no emptiness check), otherwise fall back to
fb with a tolerant parse of the body.  A native result data for which
data.map throws is caught and also falls through to fb. -/
def sjListRoute (method : Option (Unit → Except String JVal))
    (oracle : String → Option JVal) (path : String) : SJResp :=
  let viaFb : Nat → SJResp := fun nc =>
    ⟨200, tolerantParse (fb FALLBACK_BASES oracle path), nc, 1⟩
  match method with
  | none => viaFb 0
  | some f =>
    match f () with
    | .ok (.arr xs) => ⟨200, .arr (xs.map mapItem), 1, 0⟩
    | .ok _ => viaFb 1
    | .error _ => viaFb 1

/-- server.js route GET /recent. -/
def sjRecent (lib : Option SLib) (oracle : String → Option JVal) : SJResp :=
  sjListRoute (lib.bind (·.recentEpisodes)) oracle "/recent"

/-- server.js route GET /trending. -/
def sjTrending (lib : Option SLib) (oracle : String → Option JVal) : SJResp :=
  sjListRoute (lib.bind (·.trending)) oracle "/trending"

/-- server.js route GET /genres. -/
def sjGenres (lib : Option SLib) (oracle : String → Option JVal) : SJResp :=
  let viaFb : Nat → SJResp := fun nc =>
    let data := (fb FALLBACK_BASES oracle "/genres").getD .null
    ⟨200, ((data.get "genres").jsOr data).jsOr (.arr []), nc, 1⟩
  match lib.bind (·.genres) with
  | none => viaFb 0
  | some f =>
    match f () with
    | .ok data =>
      ⟨200, if data.isArr then data else (data.get "genres").jsOr (.arr []), 1, 0⟩
    | .error _ => viaFb 1

/-- server.js route GET /search: trim the query, return [] for an empty
one before loading anything; otherwise the native search result is returned
(mapped) whenever the call succeeds with an array, even an empty one, and
fb is consulted only when the native method is missing or its call throws. -/
def sjSearch (lib : Option SLib) (oracle : String → Option JVal)
    (q0 : Option String) : SJResp :=
  let q := jsTrim (q0.getD "")
  if q = "" then ⟨200, .arr [], 0, 0⟩
  else
    let viaFb : Nat → SJResp := fun nc =>
      ⟨200, tolerantParse
          (fb FALLBACK_BASES oracle ("/search?q=" ++ encodeURIComponent q)),
        nc, 1⟩
    match lib.bind (·.search) with
    | none => viaFb 0
    | some f =>
      match f q with
      | .ok (.arr xs) => ⟨200, .arr (xs.map mapItem), 1, 0⟩
      | .ok _ => viaFb 1
      | .error _ => viaFb 1

/-- server.js route GET /anime/:id.  The native detail record defaults its
title to the empty string; the fallback detail record defaults its title to
Unknown. -/
def sjAnime (lib : Option SLib) (oracle : String → Option JVal)
    (id : String) : SJResp :=
  let viaFb : Nat → SJResp := fun nc =>
    let d := (fb FALLBACK_BASES oracle
        ("/anime/" ++ encodeURIComponent id)).getD .null
    ⟨200, .obj [("title", (d.get "title").jsOr ((d.get "name").jsOr
            ((d.get "animeTitle").jsOr (.str "Unknown")))),
          ("cover", (d.get "cover").jsOr ((d.get "image").jsOr
            ((d.get "poster").jsOr (.str "")))),
          ("description", (d.get "description").jsOr ((d.get "synopsis").jsOr
            ((d.get "summary").jsOr (.str ""))))],
      nc, 1⟩
  match lib.bind (·.animeDetails) with
  | none => viaFb 0
  | some f =>
    match f id with
    | .ok d =>
      ⟨200, .obj [("title", (d.get "title").jsOr ((d.get "name").jsOr
              ((d.get "animeTitle").jsOr (.str "")))),
            ("cover", (d.get "cover").jsOr ((d.get "image").jsOr
              ((d.get "poster").jsOr (.str "")))),
            ("description", (d.get "description").jsOr ((d.get "synopsis").jsOr
              ((d.get "summary").jsOr (.str ""))))],
        1, 0⟩
    | .error _ => viaFb 1

/-- The per-episode mapper of the server.js /anime/:id/episodes native
path, including the template-literal default title. -/
def sjMapEpisode (e : JVal) : JVal :=
  .obj [("id", (e.get "id").jsOr ((e.get "episodeId").jsOr
          ((e.get "url").jsOr (.str "")))),
        ("number", (e.get "number").jsOr ((e.get "epNum").jsOr
          ((e.get "episode").jsOr (.str "")))),
        ("title", (e.get "title").jsOr
          (.str ("Episode " ++ ((e.get "number").jsOr (.str "")).display)))]

/-- server.js route GET /anime/:id/episodes.  The native result eps is
defaulted to [] when nullish; a non-array makes the map throw, falling
through to fb with a tolerant parse. -/
def sjEpisodes (lib : Option SLib) (oracle : String → Option JVal)
    (id : String) : SJResp :=
  let viaFb : Nat → SJResp := fun nc =>
    ⟨200, tolerantParse (fb FALLBACK_BASES oracle
        ("/anime/" ++ encodeURIComponent id ++ "/episodes")), nc, 1⟩
  match lib.bind (·.episodes) with
  | none => viaFb 0
  | some f =>
    match f id with
    | .ok eps =>
      match eps.jsOr (.arr []) with
      | .arr xs => ⟨200, .arr (xs.map sjMapEpisode), 1, 0⟩
      | _ => viaFb 1
    | .error _ => viaFb 1

/-- The url extraction the /watch/:episode_id route applies to a raw
sources value: url, or-else stream, or-else the file of the first element
of a sources array (or-else empty), or-else empty when sources is not an
array. -/
def sjExtractUrl (w : JVal) : JVal :=
  let alt : JVal :=
    match w.get "sources" with
    | .arr xs => ((xs.headD .undefined).get "file").jsOr (.str "")
    | _ => .str ""
  (w.get "url").jsOr ((w.get "stream").jsOr alt)

/-- server.js route GET /watch/:episode_id. -/
def sjWatch (lib : Option SLib) (oracle : String → Option JVal)
    (eid : String) : SJResp :=
  let viaFb : Nat → SJResp := fun nc =>
    let w := (fb FALLBACK_BASES oracle
        ("/watch/" ++ encodeURIComponent eid)).getD .null
    ⟨200, .obj [("url", (sjExtractUrl w).jsOr (.str ""))], nc, 1⟩
  match lib.bind (·.sources) with
  | none => viaFb 0
  | some f =>
    match f eid with
    | .ok w => ⟨200, .obj [("url", (sjExtractUrl w).jsOr (.str ""))], 1, 0⟩
    | .error _ => viaFb 1

/-! ## Claims -/

/-- C10: a search request whose query parameter is missing, empty or
whitespace-only returns an empty result immediately with a success status,
invoking neither the native provider nor the fallback provider, in both
variants. -/
theorem c10_search_blank_query (gogo : Option GogoLib)
    (cache : LRUCache String JVal) (now : Nat)
    (oracle oracle2 : String → Option JVal) (lib : Option SLib)
    (q0 : Option String) (h : jsTrim (q0.getD "") = "") :
    p0Search gogo cache now oracle q0 =
      ⟨200, .obj [("results", .arr [])], 0, 0, cache⟩ ∧
    sjSearch lib oracle2 q0 = ⟨200, .arr [], 0, 0⟩ := by
  constructor <;> simp [p0Search, sjSearch, h]

theorem c10_search_blank_query_witness :
    jsTrim ((some "   ").getD "") = "" ∧
    (p0Search none p0CacheInit 0 (fun _ => none) (some "   ") =
      ⟨200, .obj [("results", .arr [])], 0, 0, p0CacheInit⟩ ∧
     sjSearch none (fun _ => none) (some "   ") = ⟨200, .arr [], 0, 0⟩) :=
  ⟨by decide,
   c10_search_blank_query none p0CacheInit 0 (fun _ => none) (fun _ => none)
     none (some "   ") (by decide)⟩

/-- C9: the remote fallback adapter of server.js tries the configured base
URLs in order and uses the first ok response (none succeeding reports
empty), and the response body is tolerant-parsed as data, else results,
else the raw body, first truthy candidate winning (with the empty array as
final default). -/
theorem c9_fallback_bases_and_parse (bases : List String)
    (oracle : String → Option JVal) (path : String) (d : JVal) :
    fb bases oracle path =
      (bases.filterMap (fun b => oracle (b ++ path))).head? ∧
    ((∀ b ∈ bases, oracle (b ++ path) = none) → fb bases oracle path = none) ∧
    tolerantParse none = .arr [] ∧
    ((d.get "data").truthy → tolerantParse (some d) = d.get "data") ∧
    (¬ (d.get "data").truthy → (d.get "results").truthy →
      tolerantParse (some d) = d.get "results") ∧
    (¬ (d.get "data").truthy → ¬ (d.get "results").truthy → d.truthy →
      tolerantParse (some d) = d) ∧
    FALLBACK_BASES = ["https://jaybeeanime.vercel.app"] := by
  refine ⟨?_, ?_, rfl, ?_, ?_, ?_, rfl⟩
  · induction bases with
    | nil => simp [fb]
    | cons b rest ih =>
      simp only [fb, List.filterMap_cons]
      cases oracle (b ++ path) <;> simp [ih]
  · intro hall
    induction bases with
    | nil => simp [fb]
    | cons b rest ih =>
      simp only [fb]
      rw [hall b (by simp)]
      exact ih (fun b hb => hall b (by simp [hb]))
  · intro h1
    simp only [tolerantParse, JVal.jsOr]
    simp [h1]
  · intro h1 h2
    simp only [tolerantParse, JVal.jsOr]
    simp at h1
    simp [h1, h2]
  · intro h1 h2 h3
    simp only [tolerantParse, JVal.jsOr]
    simp at h1 h2
    simp [h1, h2, h3]

theorem c9_fallback_bases_and_parse_witness :
    fb ["https://a.example", "https://b.example"]
        (fun u => if u = "https://b.example/recent" then some (.num 5) else none)
        "/recent" =
      ((["https://a.example", "https://b.example"]).filterMap
        (fun b => (fun u => if u = "https://b.example/recent" then some (.num 5) else none)
          (b ++ "/recent"))).head? ∧
    tolerantParse (some (.obj [("data", .arr [.num 1])])) = .arr [.num 1] ∧
    tolerantParse (some (.obj [("results", .arr [.num 2])])) = .arr [.num 2] ∧
    tolerantParse (some (.arr [])) = .arr [] := by
  refine ⟨(c9_fallback_bases_and_parse _ _ _ (.null)).1, ?_, ?_, ?_⟩
  · exact (c9_fallback_bases_and_parse [] (fun _ => none) ""
      (.obj [("data", .arr [.num 1])])).2.2.2.1 (by simp [JVal.get, JVal.truthy])
  · exact (c9_fallback_bases_and_parse [] (fun _ => none) ""
      (.obj [("results", .arr [.num 2])])).2.2.2.2.1
      (by simp [JVal.get, JVal.truthy]) (by simp [JVal.get, JVal.truthy])
  · exact (c9_fallback_bases_and_parse [] (fun _ => none) ""
      (.arr [])).2.2.2.2.2.1
      (by simp [JVal.get, JVal.truthy]) (by simp [JVal.get, JVal.truthy])
      (by simp [JVal.truthy])

/-- C3: in the part_000 native adapter helpers the method-name aliases are
probed in a fixed priority order (recent before fetchRecentReleases,
topAiring before trending) and the first alias that exists is the one
invoked; a rejection of the invoked call is caught, a warning naming the
capability together with the error is logged, and the helper reports the
empty list, never propagating the native error. -/
theorem c3_alias_probing (g : GogoLib) (page : Int)
    (f : Int → Except String JVal) (e : String) :
    (g.recent = some f →
      tryGogoRecent (some g) page =
        match f page with
        | .ok r => ⟨gogoListCoerce r, [], 1⟩
        | .error err => ⟨.arr [], [⟨"warn", "gogo recent failed", err⟩], 1⟩) ∧
    (g.recent = none → g.fetchRecentReleases = some f →
      tryGogoRecent (some g) page =
        match f page with
        | .ok r => ⟨gogoListCoerce r, [], 1⟩
        | .error err => ⟨.arr [], [⟨"warn", "gogo recent failed", err⟩], 1⟩) ∧
    (g.recent = some f → f page = .error e →
      tryGogoRecent (some g) page =
        ⟨.arr [], [⟨"warn", "gogo recent failed", e⟩], 1⟩) ∧
    (g.topAiring = some f →
      tryGogoTop (some g) page =
        match f page with
        | .ok r => ⟨gogoListCoerce r, [], 1⟩
        | .error err => ⟨.arr [], [⟨"warn", "gogo top failed", err⟩], 1⟩) ∧
    (g.topAiring = none → g.trending = some f →
      tryGogoTop (some g) page =
        match f page with
        | .ok r => ⟨gogoListCoerce r, [], 1⟩
        | .error err => ⟨.arr [], [⟨"warn", "gogo top failed", err⟩], 1⟩) ∧
    (g.topAiring = some f → f page = .error e →
      tryGogoTop (some g) page =
        ⟨.arr [], [⟨"warn", "gogo top failed", e⟩], 1⟩) := by
  refine ⟨?_, ?_, ?_, ?_, ?_, ?_⟩ <;> intro h1
  · simp [tryGogoRecent, h1, Option.orElse]
  · intro h2
    simp [tryGogoRecent, h1, h2, Option.orElse]
  · intro h2
    simp [tryGogoRecent, h1, h2, Option.orElse]
  · simp [tryGogoTop, h1, Option.orElse]
  · intro h2
    simp [tryGogoTop, h1, h2, Option.orElse]
  · intro h2
    simp [tryGogoTop, h1, h2, Option.orElse]

/-- A library exposing only the secondary aliases, whose calls reject. -/
def gogoLibSecondaryEx : GogoLib :=
  ⟨none, some (fun _ => .ok (.arr [.obj [("title", .str "A")]])),
   none, some (fun _ => .error "boom"), none, none⟩

theorem c3_alias_probing_witness :
    tryGogoRecent (some gogoLibSecondaryEx) 1 =
      ⟨.arr [.obj [("title", .str "A")]], [], 1⟩ ∧
    tryGogoTop (some gogoLibSecondaryEx) 1 =
      ⟨.arr [], [⟨"warn", "gogo top failed", "boom"⟩], 1⟩ := by
  have h := c3_alias_probing gogoLibSecondaryEx 1
    (fun _ => .ok (.arr [.obj [("title", .str "A")]])) "boom"
  have h2 := c3_alias_probing gogoLibSecondaryEx 1
    (fun _ => .error "boom") "boom"
  exact ⟨h.2.1 rfl rfl, h2.2.2.2.2.1 rfl rfl⟩

/-- Truthiness propagates through the or-else chain when the default is
truthy. -/
theorem jsOr_truthy (a b : JVal) (hb : b.truthy) : (a.jsOr b).truthy := by
  unfold JVal.jsOr
  split <;> simp_all

/-- The title fallback chain exactly as the claim words it: title, else
name, else animeTitle, else the literal Unknown.  Stated from the claim
for comparison against the source normalizers. -/
def claimTitleChain (x : JVal) : JVal :=
  (x.get "title").jsOr ((x.get "name").jsOr
    ((x.get "animeTitle").jsOr (.str "Unknown")))

/-- C4 counterexample: no normalizer implements the claimed title chain.
mapGogo never consults animeTitle — on a raw item carrying only an
animeTitle it produces Unknown where the claimed chain produces that
value — and mapItem ends its chain in the empty string instead of
Unknown. -/
theorem c4_counterexample :
    (mapGogoItem (.obj [("animeTitle", .str "X")])).get "title" =
      .str "Unknown" ∧
    claimTitleChain (.obj [("animeTitle", .str "X")]) = .str "X" ∧
    (mapGogoItem (.obj [("animeTitle", .str "X")])).get "title" ≠
      claimTitleChain (.obj [("animeTitle", .str "X")]) ∧
    (mapItem (.obj [])).get "title" = .str "" ∧
    (mapItem (.obj [])).get "title" ≠ claimTitleChain (.obj []) := by
  refine ⟨rfl, rfl, ?_, rfl, ?_⟩ <;>
    simp [mapGogoItem, mapItem, claimTitleChain, JVal.get, JVal.jsOr,
      JVal.truthy]

/-- C4 amended: each normalizer is total on raw records and fills missing
fields with its own defaults: mapGogo resolves the title as title, else
name, else Unknown (animeTitle is not consulted) and is never empty;
mapJikan resolves it as title else Unknown and is never empty; the
server.js mapItem resolves it as title, else name, else animeTitle, else
the empty string; covers and synopses default to the empty string, tags to
the empty array, and mapJikan ids stringify a missing mal_id. -/
theorem c4_amended_normalizers (x y a : JVal) :
    mapGogoItem (.obj []) =
      .obj [("title", .str "Unknown"), ("image_url", .str ""),
            ("anime_id", .str ""), ("synopsis", .str "")] ∧
    mapJikanItem (.obj []) =
      .obj [("title", .str "Unknown"), ("image_url", .str ""),
            ("anime_id", .str "mal-undefined"), ("synopsis", .str "")] ∧
    mapItem (.obj []) =
      .obj [("id", .str ""), ("title", .str ""), ("cover", .str ""),
            ("tags", .arr [])] ∧
    ((mapGogoItem x).get "title").truthy ∧
    ((mapJikanItem y).get "title").truthy ∧
    (mapGogoItem x).get "title" =
      (x.get "title").jsOr ((x.get "name").jsOr (.str "Unknown")) ∧
    (mapItem a).get "title" =
      (a.get "title").jsOr ((a.get "name").jsOr
        ((a.get "animeTitle").jsOr (.str ""))) := by
  refine ⟨rfl, rfl, rfl, ?_, ?_, rfl, rfl⟩
  · exact jsOr_truthy _ _ (jsOr_truthy _ _ rfl)
  · exact jsOr_truthy _ _ rfl

/-- When every fetch fails, fb reports null. -/
theorem fb_none (bases : List String) (oracle : String → Option JVal)
    (path : String) (h : ∀ u, oracle u = none) :
    fb bases oracle path = none := by
  induction bases with
  | nil => rfl
  | cons b rest ih => simp [fb, h, ih]

/-- C1 counterexample: in part_000, a /recent request with the native
library unavailable and the Jikan fallback unreachable is answered with
HTTP 500 and the recent_failed error body — an error status, not a
well-formed empty payload. -/
theorem c1_counterexample :
    (p0Recent none p0CacheInit 0 (fun _ => none) 1).status = 500 ∧
    (p0Recent none p0CacheInit 0 (fun _ => none) 1).body =
      errBody "recent_failed" ∧
    (p0Search none p0CacheInit 0 (fun _ => none) (some "naruto")).status =
      500 := by
  exact ⟨rfl, rfl, rfl⟩

/-- C1 amended: in server.js every capability route answers with HTTP 200
unconditionally, and when the native library is unavailable and every
fallback fetch fails the body is the empty array (list capabilities), the
Unknown/empty placeholder (details) or an empty url record (watch).  In
part_000, the same situation is answered with HTTP 500 and a route-specific
error code (see the counterexample). -/
theorem c1_amended_server_responses (lib : Option SLib)
    (oracle : String → Option JVal) (id eid : String) (q0 : Option String)
    (hfb : ∀ u, oracle u = none) :
    sjRecent none oracle = ⟨200, .arr [], 0, 1⟩ ∧
    sjTrending none oracle = ⟨200, .arr [], 0, 1⟩ ∧
    sjGenres none oracle = ⟨200, .arr [], 0, 1⟩ ∧
    (jsTrim (q0.getD "") ≠ "" →
      sjSearch none oracle q0 = ⟨200, .arr [], 0, 1⟩) ∧
    sjAnime none oracle id =
      ⟨200, .obj [("title", .str "Unknown"), ("cover", .str ""),
                  ("description", .str "")], 0, 1⟩ ∧
    sjEpisodes none oracle id = ⟨200, .arr [], 0, 1⟩ ∧
    sjWatch none oracle eid = ⟨200, .obj [("url", .str "")], 0, 1⟩ ∧
    (sjRecent lib oracle).status = 200 ∧
    (sjTrending lib oracle).status = 200 ∧
    (sjGenres lib oracle).status = 200 ∧
    (sjSearch lib oracle q0).status = 200 ∧
    (sjAnime lib oracle id).status = 200 ∧
    (sjEpisodes lib oracle id).status = 200 ∧
    (sjWatch lib oracle eid).status = 200 := by
  have hf : ∀ p, fb FALLBACK_BASES oracle p = none :=
    fun p => fb_none _ _ _ hfb
  refine ⟨?_, ?_, ?_, ?_, ?_, ?_, ?_, ?_, ?_, ?_, ?_, ?_, ?_, ?_⟩
  · simp only [sjRecent, sjListRoute, Option.none_bind, hf]
    rfl
  · simp only [sjTrending, sjListRoute, Option.none_bind, hf]
    rfl
  · simp only [sjGenres, Option.none_bind, hf]
    rfl
  · intro hq
    simp only [sjSearch, Option.none_bind, if_neg hq, hf]
    rfl
  · simp only [sjAnime, Option.none_bind, hf]
    rfl
  · simp only [sjEpisodes, Option.none_bind, hf]
    rfl
  · simp only [sjWatch, Option.none_bind, hf]
    rfl
  · unfold sjRecent sjListRoute
    split
    · rfl
    · split <;> rfl
  · unfold sjTrending sjListRoute
    split
    · rfl
    · split <;> rfl
  · unfold sjGenres
    split
    · rfl
    · split <;> rfl
  · simp only [sjSearch]
    split
    · rfl
    · split
      · rfl
      · split <;> rfl
  · unfold sjAnime
    split
    · rfl
    · split <;> rfl
  · unfold sjEpisodes
    split
    · rfl
    · split
      · split <;> rfl
      · rfl
  · unfold sjWatch
    split
    · rfl
    · split <;> rfl

theorem c1_amended_server_responses_witness :
    (∀ u, (fun (_ : String) => (none : Option JVal)) u = none) ∧
    (sjRecent none (fun _ => none) = ⟨200, .arr [], 0, 1⟩ ∧
     sjTrending none (fun _ => none) = ⟨200, .arr [], 0, 1⟩ ∧
     sjGenres none (fun _ => none) = ⟨200, .arr [], 0, 1⟩ ∧
     (jsTrim ((some "naruto").getD "") ≠ "" →
       sjSearch none (fun _ => none) (some "naruto") = ⟨200, .arr [], 0, 1⟩) ∧
     sjAnime none (fun _ => none) "x" =
       ⟨200, .obj [("title", .str "Unknown"), ("cover", .str ""),
                   ("description", .str "")], 0, 1⟩ ∧
     sjEpisodes none (fun _ => none) "x" = ⟨200, .arr [], 0, 1⟩ ∧
     sjWatch none (fun _ => none) "e1" = ⟨200, .obj [("url", .str "")], 0, 1⟩ ∧
     (sjRecent none (fun _ => none)).status = 200 ∧
     (sjTrending none (fun _ => none)).status = 200 ∧
     (sjGenres none (fun _ => none)).status = 200 ∧
     (sjSearch none (fun _ => none) (some "naruto")).status = 200 ∧
     (sjAnime none (fun _ => none) "x").status = 200 ∧
     (sjEpisodes none (fun _ => none) "x").status = 200 ∧
     (sjWatch none (fun _ => none) "e1").status = 200) :=
  ⟨fun _ => rfl,
   c1_amended_server_responses none (fun _ => none) "x" "e1" (some "naruto")
     (fun _ => rfl)⟩

/-- A gogo library whose search resolves to an empty list. -/
def gogoEmptySearchEx : GogoLib :=
  ⟨none, none, none, none, some (fun _ => .ok (.arr [])), none⟩

/-- A server.js library whose search resolves to an empty array. -/
def sLibEmptySearchEx : SLib :=
  ⟨none, none, none, some (fun _ => .ok (.arr [])), none, none, none⟩

/-- C2 counterexample: when the native search yields an empty sequence,
part_000 tags the result provider jikan — not the literal fallback (nor
native) the claim states — and server.js returns the empty native result
as an untagged bare array without invoking the fallback at all. -/
theorem c2_counterexample :
    (p0Search (some gogoEmptySearchEx) p0CacheInit 0
        (fun _ => some (.obj [("data", .arr [])])) (some "naruto")).body.get
        "provider" = .str "jikan" ∧
    (p0Search (some gogoEmptySearchEx) p0CacheInit 0
        (fun _ => some (.obj [("data", .arr [])])) (some "naruto")).body.get
        "provider" ≠ .str "fallback" ∧
    sjSearch (some sLibEmptySearchEx) (fun _ => none) (some "naruto") =
      ⟨200, .arr [], 1, 0⟩ ∧
    (sjSearch (some sLibEmptySearchEx) (fun _ => none) (some "naruto")).body.get
        "provider" = .undefined := by
  refine ⟨rfl, ?_, rfl, rfl⟩
  intro h
  rw [show (p0Search (some gogoEmptySearchEx) p0CacheInit 0
      (fun _ => some (.obj [("data", .arr [])])) (some "naruto")).body.get
      "provider" = .str "jikan" from rfl] at h
  simp at h

/-- C2 amended: for a non-empty trimmed query, the part_000 search result
is an object with a results list and a provider tag that is gogo for the
native path and jikan for the fallback path; a native result coerced to a
non-empty list is mapped through mapGogo, tagged gogo and performs no
jikan call, while an empty native list triggers exactly one jikan helper
call, tagging any successful response jikan.  The server.js search instead
returns the mapped native array untagged whenever the native call resolves
to an array — even an empty one — without consulting the fallback. -/
theorem c2_amended_search (g : GogoLib) (cache : LRUCache String JVal)
    (now : Nat) (oracle oracle2 : String → Option JVal) (q0 : Option String)
    (f f2 : String → Except String JVal) (x : JVal) (l ys : List JVal)
    (lib : SLib) (hq : jsTrim (q0.getD "") ≠ "") (hs : g.search = some f) :
    (f (jsTrim (q0.getD "")) = .ok (.arr (x :: l)) →
      p0Search (some g) cache now oracle q0 =
        ⟨200, .obj [("results", .arr (mapGogo (x :: l))),
                    ("provider", .str "gogo")], 1, 0, cache⟩) ∧
    (f (jsTrim (q0.getD "")) = .ok (.arr []) →
      (p0Search (some g) cache now oracle q0).jikanCalls = 1 ∧
      (p0Search (some g) cache now oracle q0).gogoCalls = 1 ∧
      ((p0Search (some g) cache now oracle q0).status = 200 →
        (p0Search (some g) cache now oracle q0).body.get "provider" =
          .str "jikan")) ∧
    ((p0Search (some g) cache now oracle q0).status = 200 →
      ∃ items p, (p0Search (some g) cache now oracle q0).body =
        .obj [("results", .arr items), ("provider", .str p)] ∧
        (p = "gogo" ∨ p = "jikan")) ∧
    (lib.search = some f2 → f2 (jsTrim (q0.getD "")) = .ok (.arr ys) →
      sjSearch (some lib) oracle2 q0 = ⟨200, .arr (ys.map mapItem), 1, 0⟩) := by
  refine ⟨?_, ?_, ?_, ?_⟩
  · intro h
    simp [p0Search, if_neg hq, hs, h, JVal.isArr, JVal.lengthProp,
      JVal.truthy]
    rw [if_neg (by omega)]
    simp [callMapGogo]
  · intro h
    simp only [p0Search, if_neg hq, Option.some_bind, hs, h, JVal.isArr,
      if_true, JVal.lengthProp, JVal.truthy, List.length_nil]
    norm_num
    split
    · next jk c' heq =>
      split
      · simp [JVal.get]
      · simp
    · simp
  · simp only [p0Search, if_neg hq, Option.some_bind, hs]
    rcases hfq : f (jsTrim (q0.getD "")) with e | g2 <;> simp only [hfq]
    · intro h
      simp at h
    · repeat' split
      all_goals
        first
          | (intro h; simp at h; done)
          | (intro h2; exact ⟨_, "gogo", rfl, Or.inl rfl⟩)
          | (intro h2; exact ⟨_, "jikan", rfl, Or.inr rfl⟩)
  · intro h1 h2
    simp [sjSearch, if_neg hq, h1, h2]

/-- A gogo library whose search resolves to one item. -/
def gogoOneSearchEx : GogoLib :=
  ⟨none, none, none, none,
   some (fun _ => .ok (.arr [.obj [("title", .str "A")]])), none⟩

theorem c2_amended_search_witness :
    jsTrim ((some "naruto").getD "") ≠ "" ∧
    (p0Search (some gogoOneSearchEx) p0CacheInit 0 (fun _ => none)
        (some "naruto") =
      ⟨200, .obj [("results", .arr (mapGogo ((.obj [("title", .str "A")]) :: []))),
                  ("provider", .str "gogo")], 1, 0, p0CacheInit⟩) ∧
    (p0Search (some gogoEmptySearchEx) p0CacheInit 0
        (fun _ => some (.obj [("data", .arr [])])) (some "naruto")).jikanCalls
      = 1 ∧
    sjSearch (some sLibEmptySearchEx) (fun _ => none) (some "naruto") =
      ⟨200, .arr (([] : List JVal).map mapItem), 1, 0⟩ := by
  refine ⟨by decide, ?_, ?_, ?_⟩
  · exact (c2_amended_search gogoOneSearchEx p0CacheInit 0 (fun _ => none)
      (fun _ => none) (some "naruto")
      (fun _ => .ok (.arr [.obj [("title", .str "A")]]))
      (fun _ => .ok (.arr [])) (.obj [("title", .str "A")]) [] []
      sLibEmptySearchEx (by decide) rfl).1 rfl
  · exact ((c2_amended_search gogoEmptySearchEx p0CacheInit 0
      (fun _ => some (.obj [("data", .arr [])])) (fun _ => none)
      (some "naruto") (fun _ => .ok (.arr [])) (fun _ => .ok (.arr []))
      (.obj []) [] [] sLibEmptySearchEx (by decide) rfl).2.1 rfl).1
  · exact (c2_amended_search gogoEmptySearchEx p0CacheInit 0
      (fun _ => none) (fun _ => none) (some "naruto")
      (fun _ => .ok (.arr [])) (fun _ => .ok (.arr [])) (.obj []) [] []
      sLibEmptySearchEx (by decide) rfl).2.2.2 rfl rfl

/-- C7 counterexample: when every candidate import fails, tryLoadLibs
probes both candidates, stores nothing, and a second call probes both
candidates again — the failed outcome is not memoized and the load is
re-attempted, contradicting attempted-at-most-once. -/
theorem c7_counterexample :
    tryLoadLibs ⟨fun _ => none⟩ none = ⟨none, none, 2⟩ ∧
    tryLoadLibs ⟨fun _ => none⟩ (tryLoadLibs ⟨fun _ => none⟩ none).state =
      ⟨none, none, 2⟩ :=
  ⟨rfl, rfl⟩

/-- C7 amended: tryLoadLibs memoizes only success — a stored library is
returned with zero import probes, and a first-candidate success is stored
after one probe — while a call that finds every candidate failing leaves
the state empty and performs both probes again on every later call. -/
theorem c7_amended_load_memoization (env : ImportEnv) (lib lib2 : SLib) :
    tryLoadLibs env (some lib) = ⟨some lib, some lib, 0⟩ ∧
    ((∀ n, env.resolve n = none) →
      tryLoadLibs env none = ⟨none, none, 2⟩) ∧
    (env.resolve "gogoanime-api" = some lib2 →
      tryLoadLibs env none = ⟨some lib2, some lib2, 1⟩) := by
  refine ⟨rfl, ?_, ?_⟩
  · intro h
    simp [tryLoadLibs, probeCandidates, candidates, h]
  · intro h
    simp [tryLoadLibs, probeCandidates, candidates, h]

/-- A library value with no capabilities, for load-order examples. -/
def sLibBareEx : SLib := ⟨none, none, none, none, none, none, none⟩

theorem c7_amended_load_memoization_witness :
    tryLoadLibs ⟨fun _ => none⟩ (some sLibBareEx) =
      ⟨some sLibBareEx, some sLibBareEx, 0⟩ ∧
    tryLoadLibs ⟨fun _ => none⟩ none = ⟨none, none, 2⟩ ∧
    tryLoadLibs ⟨fun _ => some sLibBareEx⟩ none =
      ⟨some sLibBareEx, some sLibBareEx, 1⟩ :=
  ⟨(c7_amended_load_memoization ⟨fun _ => none⟩ sLibBareEx sLibBareEx).1,
   (c7_amended_load_memoization ⟨fun _ => none⟩ sLibBareEx sLibBareEx).2.1
     (fun _ => rfl),
   (c7_amended_load_memoization ⟨fun _ => some sLibBareEx⟩ sLibBareEx
     sLibBareEx).2.2 rfl⟩

/-- The detail record the mal- branch reads from a jikan response:
jk.data or-else the empty object. -/
def p0DetailOf (jk : JVal) : JVal := (jk.get "data").jsOr (.obj [])

/-- C8: a details request whose id carries the mal- marker of the fallback
provider is answered from the jikan path without any native probe (the
result does not depend on the gogo library at all), and the episodes field
of the response is the upstream episodes value with nullish values
defaulted to 0 — so it is 0 when the upstream field is absent and equals
the upstream count (hence non-negative for a well-formed upstream). -/
theorem c8_mal_details_routing (gogo : Option GogoLib)
    (cache : LRUCache String JVal) (now : Nat)
    (oracle : String → Option JVal) (id : String)
    (hid : jsStartsWith id "mal-") :
    (p0Anime gogo cache now oracle id).gogoCalls = 0 ∧
    p0Anime gogo cache now oracle id = p0Anime none cache now oracle id ∧
    (∀ jk c',
      jikan cache now oracle ("/anime/" ++ jsDropChars id 4) = .ok (jk, c') →
      p0Anime gogo cache now oracle id =
        ⟨200, .obj [("title", (p0DetailOf jk).get "title"),
          ("image_url",
            ((((p0DetailOf jk).get "images").get "jpg").get "image_url").jsOr
              (.str "")),
          ("description", ((p0DetailOf jk).get "synopsis").jsOr (.str "")),
          ("episodes", ((p0DetailOf jk).get "episodes").coalesce (.num 0))],
          0, 1, c'⟩ ∧
      ((p0DetailOf jk).get "episodes" = .undefined →
        ((p0DetailOf jk).get "episodes").coalesce (.num 0) = .num 0) ∧
      (∀ n : Int, (p0DetailOf jk).get "episodes" = .num n →
        ((p0DetailOf jk).get "episodes").coalesce (.num 0) = .num n)) := by
  refine ⟨?_, ?_, ?_⟩
  · simp only [p0Anime, if_pos hid]
    split <;> rfl
  · simp only [p0Anime, if_pos hid]
  · intro jk c' hj
    refine ⟨?_, ?_, ?_⟩
    · simp [p0Anime, if_pos hid, hj, p0DetailOf]
    · intro h
      rw [h]
      rfl
    · intro n h
      rw [h]
      rfl

/-- A jikan detail response without an episodes field. -/
def jikanDetailRespEx : JVal := .obj [("data", .obj [("title", .str "T")])]

theorem c8_mal_details_routing_witness :
    (jsStartsWith "mal-21" "mal-" = true) ∧
    ((p0Anime none p0CacheInit 0 (fun _ => some jikanDetailRespEx)
        "mal-21").gogoCalls = 0 ∧
     p0Anime none p0CacheInit 0 (fun _ => some jikanDetailRespEx) "mal-21" =
       p0Anime none p0CacheInit 0 (fun _ => some jikanDetailRespEx) "mal-21" ∧
     ((p0DetailOf jikanDetailRespEx).get "episodes" = .undefined →
       ((p0DetailOf jikanDetailRespEx).get "episodes").coalesce (.num 0) =
         .num 0)) := by
  have h := c8_mal_details_routing none p0CacheInit 0
    (fun _ => some jikanDetailRespEx) "mal-21" (by decide)
  refine ⟨by decide, h.1, h.2.1, ?_⟩
  exact (h.2.2 jikanDetailRespEx
    (p0CacheInit.set 0 ("jk:" ++ jikanBase ++ "/anime/21")
      jikanDetailRespEx (1000 * 60 * 3)) rfl).2.1

/-- A raw jikan list response with one item missing every optional field
except its mal_id. -/
def jikanRawRespEx : JVal := .obj [("data", .arr [.obj [("mal_id", .num 1)]])]

/-- The normalized item mapJikan produces from that raw response. -/
def jikanMappedEx : JVal :=
  .obj [("title", .str "Unknown"), ("image_url", .str ""),
        ("anime_id", .str "mal-1"), ("synopsis", .str "")]

/-- C5 counterexample: on a /recent request served by the fallback, the
cache entry written holds the raw jikan response body — whose item still
lacks a title — while the final normalized value sent to the client is the
mapJikan image of that raw data; the stored value is therefore not the
final normalized value, and a later request that hits the cache (the
fetch oracle now failing) still re-applies mapJikan to the stored raw
value. -/
theorem c5_counterexample :
    (p0Recent none p0CacheInit 0 (fun _ => some jikanRawRespEx) 1).cache.entries.map
      (fun e => e.val) = [jikanRawRespEx] ∧
    (p0Recent none p0CacheInit 0 (fun _ => some jikanRawRespEx) 1).body =
      .arr [jikanMappedEx] ∧
    jikanRawRespEx ≠ .arr [jikanMappedEx] ∧
    (p0Recent none
        (p0Recent none p0CacheInit 0 (fun _ => some jikanRawRespEx) 1).cache
        0 (fun _ => none) 1).body = .arr [jikanMappedEx] ∧
    (p0Recent none
        (p0Recent none p0CacheInit 0 (fun _ => some jikanRawRespEx) 1).cache
        0 (fun _ => none) 1).status = 200 := by
  refine ⟨rfl, rfl, ?_, rfl, rfl⟩
  intro h
  simp [jikanRawRespEx, jikanMappedEx] at h


/-- With no native library, /recent is exactly the jikan branch. -/
theorem p0Recent_noGogo (cache : LRUCache String JVal) (now : Nat)
    (oracle : String → Option JVal) (page : Int) :
    p0Recent none cache now oracle page =
      match jikan cache now oracle
          ("/seasons/now?limit=24&page=" ++ toString page) with
      | .ok (jk, c') =>
        match callMapJikan (jk.get "data") with
        | .ok items => ⟨200, .arr items, 0, 1, c'⟩
        | .error _ => ⟨500, errBody "recent_failed", 0, 1, c'⟩
      | .error _ => ⟨500, errBody "recent_failed", 0, 1, cache⟩ := rfl

/-- C5 amended: the part_000 cache, consulted only inside the jikan helper,
stores the raw fallback response body under a provider-specific key
(jk: followed by the jikan URL): on a cache hit the /recent handler still
produces its body by applying mapJikan to the stored raw value, and on a
miss with a successful fetch the entry written holds the raw response
itself. -/
theorem c5_amended_cache_raw (cache : LRUCache String JVal) (now : Nat)
    (oracle : String → Option JVal) (page : Int) (jk j : JVal)
    (c' : LRUCache String JVal) :
    (cache.get now
        ("jk:" ++ (jikanBase ++ ("/seasons/now?limit=24&page=" ++
          toString page))) = (some jk, c') →
      ∀ items, callMapJikan (jk.get "data") = .ok items →
        p0Recent none cache now oracle page = ⟨200, .arr items, 0, 1, c'⟩) ∧
    ((cache.get now
        ("jk:" ++ (jikanBase ++ ("/seasons/now?limit=24&page=" ++
          toString page)))).1 = none →
      oracle (jikanBase ++ ("/seasons/now?limit=24&page=" ++ toString page))
        = some j →
      0 < cache.max →
      (p0Recent none cache now oracle page).cache.entries.head? =
        some ⟨"jk:" ++ (jikanBase ++ ("/seasons/now?limit=24&page=" ++
          toString page)), j, now + 1000 * 60 * 3⟩) := by
  constructor
  · intro hget items hmap
    have hj : jikan cache now oracle
        ("/seasons/now?limit=24&page=" ++ toString page) = .ok (jk, c') := by
      simp only [jikan, hget]
    rw [p0Recent_noGogo]
    simp only [hj, hmap]
  · intro hget horacle hmax
    rcases hq : cache.get now
        ("jk:" ++ (jikanBase ++ ("/seasons/now?limit=24&page=" ++
          toString page))) with ⟨o, c2⟩
    have ho : o = none := by
      rw [hq] at hget
      exact hget
    subst ho
    have hj : jikan cache now oracle
        ("/seasons/now?limit=24&page=" ++ toString page) =
        .ok (j, cache.set now
          ("jk:" ++ (jikanBase ++ ("/seasons/now?limit=24&page=" ++
            toString page))) j (1000 * 60 * 3)) := by
      simp only [jikan, hq, horacle]
    rw [p0Recent_noGogo]
    simp only [hj]
    rcases hc : cache.max with _ | m
    · omega
    · split <;> simp [LRUCache.set, hc]

/-- A cache holding the raw jikan response for the page-1 recent lookup. -/
def c5CacheEx : LRUCache String JVal :=
  ⟨300, 1000 * 60 * 5,
   [⟨"jk:" ++ (jikanBase ++ ("/seasons/now?limit=24&page=" ++
      toString (1 : Int))), jikanRawRespEx, 100⟩]⟩

theorem c5_amended_cache_raw_witness :
    p0Recent none c5CacheEx 0 (fun _ => none) 1 =
      ⟨200, .arr [jikanMappedEx], 0, 1, c5CacheEx⟩ ∧
    (p0Recent none p0CacheInit 0 (fun _ => some jikanRawRespEx)
        1).cache.entries.head? =
      some ⟨"jk:" ++ (jikanBase ++ ("/seasons/now?limit=24&page=" ++
        toString (1 : Int))), jikanRawRespEx, 0 + 1000 * 60 * 3⟩ := by
  constructor
  · exact (c5_amended_cache_raw c5CacheEx 0 (fun _ => none) 1 jikanRawRespEx
      .null c5CacheEx).1 rfl [jikanMappedEx] rfl
  · exact (c5_amended_cache_raw p0CacheInit 0 (fun _ => some jikanRawRespEx) 1
      .null jikanRawRespEx p0CacheInit).2 rfl rfl (by decide)

namespace LRUCache

variable {κ α : Type} [DecidableEq κ]

/-- Erasing a key that is not present leaves the entries unchanged. -/
theorem eraseKey_of_not_mem (c : LRUCache κ α) (k : κ) (h : k ∉ c.keys) :
    c.eraseKey k = c.entries := by
  unfold eraseKey
  apply List.filter_eq_self.mpr
  intro e he
  have hne : e.key ≠ k := fun hk => h (hk ▸ List.mem_map_of_mem (·.key) he)
  simp [hne]

/-- Inserting a fresh key prepends it and truncates to the capacity. -/
theorem set_keys_of_fresh (c : LRUCache κ α) (now : Nat) (k : κ) (v : α)
    (ttl : Nat) (h : k ∉ c.keys) :
    (c.set now k v ttl).keys = (k :: c.keys).take c.max := by
  show (((⟨k, v, now + ttl⟩ : CacheEntry κ α) :: c.eraseKey k).take
    c.max).map (·.key) = (k :: c.keys).take c.max
  rw [eraseKey_of_not_mem c k h, List.map_take]
  rfl

/-- set preserves the capacity. -/
theorem set_max (c : LRUCache κ α) (now : Nat) (k : κ) (v : α) (ttl : Nat) :
    (c.set now k v ttl).max = c.max := rfl

/-- set keeps the entry list within the capacity. -/
theorem set_length_le (c : LRUCache κ α) (now : Nat) (k : κ) (v : α)
    (ttl : Nat) : (c.set now k v ttl).entries.length ≤ c.max := by
  show ((_ :: c.eraseKey k).take c.max).length ≤ c.max
  rw [List.length_take]
  exact Nat.min_le_left _ _

/-- Truncating after an append absorbs an inner truncation to the same
size. -/
theorem take_append_take {β : Type} (A l : List β) (m : Nat) :
    (A ++ l.take m).take m = (A ++ l).take m := by
  rw [List.take_append_eq_append_take, List.take_append_eq_append_take,
    List.take_take, Nat.min_eq_left (Nat.sub_le m A.length)]

/-- Folding distinct fresh bindings into a cache that is within capacity:
the resulting key list is the reversed insertion order prefixed to the old
keys, truncated to the capacity — the least recently used entries beyond
the capacity are the evicted ones. -/
theorem insertAll_keys (now ttl : Nat) :
    ∀ (ks : List (κ × α)) (c : LRUCache κ α),
      (ks.map Prod.fst ++ c.keys).Nodup →
      c.entries.length ≤ c.max →
      (c.insertAll now ttl ks).max = c.max ∧
      (c.insertAll now ttl ks).keys =
        ((ks.map Prod.fst).reverse ++ c.keys).take c.max
  | [], c, hnd, hlen => by
    refine ⟨rfl, ?_⟩
    have : c.keys.length ≤ c.max := by
      unfold keys
      rw [List.length_map]
      exact hlen
    simp [insertAll, List.take_of_length_le this]
  | (k, v) :: rest, c, hnd, hlen => by
    have hk_not : k ∉ c.keys := by
      have := hnd.not_mem
      intro hk
      exact this (List.mem_append_right _ hk)
    have hset := set_keys_of_fresh c now k v ttl hk_not
    have hnd2 : (rest.map Prod.fst ++ (c.set now k v ttl).keys).Nodup := by
      have hperm : ((k, v).1 :: (rest.map Prod.fst ++ c.keys)).Perm
          (rest.map Prod.fst ++ ((k, v).1 :: c.keys)) :=
        List.perm_middle.symm
      have hnd3 : (rest.map Prod.fst ++ (k :: c.keys)).Nodup :=
        hperm.nodup hnd
      have hsub : (rest.map Prod.fst ++ (c.set now k v ttl).keys).Sublist
          (rest.map Prod.fst ++ (k :: c.keys)) := by
        rw [hset]
        exact (List.take_sublist _ _).append_left _
      exact hnd3.sublist hsub
    have hlen2 : (c.set now k v ttl).entries.length ≤ (c.set now k v ttl).max :=
      set_length_le c now k v ttl
    have ih := insertAll_keys now ttl rest (c.set now k v ttl) hnd2 hlen2
    refine ⟨by rw [show insertAll c now ttl ((k, v) :: rest) =
      insertAll (c.set now k v ttl) now ttl rest from rfl, ih.1, set_max], ?_⟩
    rw [show insertAll c now ttl ((k, v) :: rest) =
      insertAll (c.set now k v ttl) now ttl rest from rfl, ih.2, set_max,
      hset, List.map_cons, List.reverse_cons, take_append_take]
    simp

/-- A freshly set entry found past its time-to-live is reported absent,
however recently it was used. -/
theorem get_stale_none (c : LRUCache κ α) (now1 : Nat) (k : κ) (v : α)
    (ttl now2 : Nat) (h : now1 + ttl < now2) :
    ((c.set now1 k v ttl).get now2 k).1 = none := by
  unfold get set
  rcases hm : c.max with _ | m
  · simp
  · have hfind : List.find? (fun e => (e.key = k : Bool))
        (((⟨k, v, now1 + ttl⟩ : CacheEntry κ α) :: c.eraseKey k).take (m + 1)) =
        some ⟨k, v, now1 + ttl⟩ := by
      rw [List.take_succ_cons]
      simp [List.find?]
    rw [hfind]
    have hlt : ¬ now2 ≤ now1 + ttl := by omega
    simp [hlt]

end LRUCache

/-- C6: the part_000 response cache is a bounded least-recently-used map of
capacity 300 with a default ttl of 5 minutes, and the jikan helper writes
its entries with the shorter 3-minute ttl.  Inserting 301 distinct keys
into an empty capacity-300 cache leaves exactly the 300 most recent, in
recency order — the first-inserted (least recently used) key and only that
key is evicted — and a read past an entry's time-to-live reports it absent
however recent the entry is.  The least-recently-used mechanics themselves
live in the external lru-cache dependency and are modelled from the spec
(see the LRUCache model); the capacity and ttl constants come from the
source. -/
theorem c6_cache_bounds_and_ttl {κ α : Type} [DecidableEq κ]
    (ks : List (κ × α)) (now ttl now1 now2 ttl2 : Nat)
    (c : LRUCache κ α) (k : κ) (v : α)
    (cache : LRUCache String JVal) (oracle : String → Option JVal)
    (path : String) (j : JVal)
    (hnd : (ks.map Prod.fst).Nodup) (hlen : ks.length = 301) :
    p0CacheInit.max = 300 ∧
    p0CacheInit.ttl = 1000 * 60 * 5 ∧
    ((LRUCache.empty 300 ttl : LRUCache κ α).insertAll now ttl ks).keys =
      ((ks.map Prod.fst).reverse).take 300 ∧
    (∀ k0 rest, ks.map Prod.fst = k0 :: rest →
      k0 ∉ ((LRUCache.empty 300 ttl : LRUCache κ α).insertAll now ttl ks).keys ∧
      ∀ x ∈ rest,
        x ∈ ((LRUCache.empty 300 ttl : LRUCache κ α).insertAll now ttl ks).keys) ∧
    (now1 + ttl2 < now2 → ((c.set now1 k v ttl2).get now2 k).1 = none) ∧
    (cache.entries = [] → oracle (jikanBase ++ path) = some j →
      jikan cache now oracle path =
        .ok (j, cache.set now ("jk:" ++ (jikanBase ++ path)) j
          (1000 * 60 * 3))) := by
  have hkeys :
      ((LRUCache.empty 300 ttl : LRUCache κ α).insertAll now ttl ks).keys =
        ((ks.map Prod.fst).reverse).take 300 := by
    have h := LRUCache.insertAll_keys now ttl ks
      (LRUCache.empty 300 ttl : LRUCache κ α)
      (by simpa [LRUCache.keys, LRUCache.empty] using hnd)
      (by simp [LRUCache.empty])
    simpa [LRUCache.empty, LRUCache.keys] using h.2
  refine ⟨rfl, rfl, hkeys, ?_, ?_, ?_⟩
  · intro k0 rest hmap
    have hrestlen : rest.length = 300 := by
      have : (ks.map Prod.fst).length = 301 := by
        rw [List.length_map, hlen]
      rw [hmap] at this
      simpa using this
    have hfinal :
        ((LRUCache.empty 300 ttl : LRUCache κ α).insertAll now ttl ks).keys =
          rest.reverse := by
      rw [hkeys, hmap, List.reverse_cons]
      rw [show (300 : Nat) = rest.reverse.length by simp [hrestlen]]
      exact List.take_left _ _
    have hnd2 : (k0 :: rest).Nodup := hmap ▸ hnd
    constructor
    · rw [hfinal, List.mem_reverse]
      exact (List.nodup_cons.mp hnd2).1
    · intro x hx
      rw [hfinal, List.mem_reverse]
      exact hx
  · exact fun h => LRUCache.get_stale_none c now1 k v ttl2 now2 h
  · intro h1 h2
    simp [jikan, LRUCache.get, h1, h2]

theorem c6_cache_bounds_and_ttl_witness :
    ((List.range 301).map (fun i => (i, ()))).length = 301 ∧
    p0CacheInit.max = 300 ∧
    ((LRUCache.empty 300 0 : LRUCache Nat Unit).insertAll 0 0
        ((List.range 301).map (fun i => (i, ())))).keys =
      ((((List.range 301).map (fun i => (i, ()))).map Prod.fst).reverse).take
        300 ∧
    (0 : Nat) ∉ ((LRUCache.empty 300 0 : LRUCache Nat Unit).insertAll 0 0
        ((List.range 301).map (fun i => (i, ())))).keys ∧
    (1 : Nat) ∈ ((LRUCache.empty 300 0 : LRUCache Nat Unit).insertAll 0 0
        ((List.range 301).map (fun i => (i, ())))).keys ∧
    (((LRUCache.empty 300 0 : LRUCache Nat Unit).set 5 7 () 10).get 16 7).1 =
      none ∧
    jikan p0CacheInit 0 (fun _ => some (.num 1)) "/x" =
      .ok (.num 1, p0CacheInit.set 0 ("jk:" ++ (jikanBase ++ "/x")) (.num 1)
        (1000 * 60 * 3)) := by
  have hfst : ∀ l : List Nat, l.map (Prod.fst ∘ fun i => (i, ())) = l := by
    intro l
    induction l with
    | nil => rfl
    | cons a t ih => simp only [List.map_cons, Function.comp_apply, ih]
  have h := c6_cache_bounds_and_ttl ((List.range 301).map (fun i => (i, ())))
    0 0 5 16 10 (LRUCache.empty 300 0 : LRUCache Nat Unit) 7 ()
    p0CacheInit (fun _ => some (.num 1)) "/x" (.num 1)
    (by rw [List.map_map, hfst]; exact List.nodup_range _)
    (by simp)
  have hmap : ((List.range 301).map (fun i => (i, ()))).map Prod.fst =
      0 :: (List.range 300).map (fun i => i + 1) := by
    rw [List.map_map, hfst]
    rw [show (301 : Nat) = 300 + 1 from rfl, List.range_succ_eq_map]
  have h4 := h.2.2.2.1 0 ((List.range 300).map (fun i => i + 1)) hmap
  exact ⟨by simp, h.1, h.2.2.1, h4.1,
    h4.2 1 (List.mem_map.mpr ⟨0, by simp, rfl⟩),
    h.2.2.2.2.1 (by omega), h.2.2.2.2.2 rfl rfl⟩

theorem c4_amended_normalizers_witness :
    mapGogoItem (.obj []) =
      .obj [("title", .str "Unknown"), ("image_url", .str ""),
            ("anime_id", .str ""), ("synopsis", .str "")] ∧
    mapJikanItem (.obj []) =
      .obj [("title", .str "Unknown"), ("image_url", .str ""),
            ("anime_id", .str "mal-undefined"), ("synopsis", .str "")] ∧
    mapItem (.obj []) =
      .obj [("id", .str ""), ("title", .str ""), ("cover", .str ""),
            ("tags", .arr [])] ∧
    ((mapGogoItem (.obj [])).get "title").truthy ∧
    ((mapJikanItem (.obj [])).get "title").truthy ∧
    (mapGogoItem (.obj [])).get "title" =
      ((JVal.obj []).get "title").jsOr (((JVal.obj []).get "name").jsOr
        (.str "Unknown")) ∧
    (mapItem (.obj [])).get "title" =
      ((JVal.obj []).get "title").jsOr (((JVal.obj []).get "name").jsOr
        (((JVal.obj []).get "animeTitle").jsOr (.str ""))) :=
  c4_amended_normalizers (.obj []) (.obj []) (.obj [])
